import Mathlib

/-!
Verification of the Parallel Dispatch Core of `numba/np/ufunc/parallel.py`.

The Python module is shallowly embedded below.  Process-wide mutable globals
(`_is_initialized`, `_threading_layer`) become an explicit `State` record that
is threaded through `launch_threads`; the ambient process facts the module
reads (the configured threading layer string, the platform, which native
backends can be imported, whether the native launch call succeeds) become an
explicit `Env` record.  Python exceptions become explicit error values of
type `Err`; an exception escaping `_launch_threads` is modelled as the pair
`(state, some err)` where `state` reflects exactly the global mutations the
Python code performed before raising (the code only assigns
`_threading_layer` / `_is_initialized` at the very end, after all fallible
steps).  Warnings issued through `warnings.warn` are returned as a list of
strings.
-/

set_option maxRecDepth 8192

namespace NumbaParallel

/-- Platform flags, from `_IS_OSX` / `_IS_LINUX` / `_IS_WINDOWS`
(`parallel.py` lines 31-33). -/
structure Platform where
  isWindows : Bool
  isOSX : Bool
  isLinux : Bool
deriving Repr, DecidableEq

/-- The three loadable thread-pool modules: `numba.np.ufunc.tbbpool`,
`omppool`, `workqueue`. -/
inductive Backend where
  | tbb
  | omp
  | workqueue
deriving Repr, DecidableEq

/-- Ambient process facts `_launch_threads` consults: the configured
`config.THREADING_LAYER` string, the platform, whether each native
backend import would succeed, the TBB runtime interface version, and if the
selected backend's `launch_threads` C call succeeds. -/
structure Env where
  threadingLayerConfig : String
  platform : Platform
  tbbCDLLPresent : Bool
  tbbIfaceVersion : Int
  tbbPoolImportOk : Bool
  ompImportOk : Bool
  workqueueImportOk : Bool
  launchOk : Bool
deriving Repr, DecidableEq

/-- The module-level mutable globals of `parallel.py` relevant to
initialization: `_is_initialized` (line 312), `_threading_layer` (line 315),
plus instrumentation recording every invocation of the backend's
`launch_threads` entry point (line 491-492) and which backend got launched. -/
structure State where
  is_initialized : Bool
  threading_layer : Option String
  launch_calls : Nat
  launched_backend : Option Backend
deriving Repr, DecidableEq

/-- The fresh state at module import: `_is_initialized = False`,
`_threading_layer = None`, no launch performed. -/
def initState : State :=
  { is_initialized := false, threading_layer := none, launch_calls := 0,
    launched_backend := none }

/-- Errors raised by the embedded code.  Each constructor records the Python
exception it models:
* `unknownLayer t` — `ValueError("The threading layer requested '%s' is
  unknown to Numba." % t)` (lines 479-481);
* `unknownValue b` — `ValueError("Unknown value specified for threading
  layer: %s" % backend)` inside `select_known_backend` (lines 391-393);
* `noPurpose t` — the unreachable `ValueError("No threading layer available
  for purpose %s" % t)` (lines 465-467);
* `noThreadingLayer msg` — the `ValueError` built by `raise_with_hint`
  (lines 420-430), carrying the full message;
* `importError what` — an uncaught `ImportError` (the `workqueue` import at
  line 390 is not wrapped in try/except);
* `launchFailed` — the backend `launch_threads` C call raising (line 492). -/
inductive Err where
  | unknownLayer (t : String)
  | unknownValue (backend : String)
  | noPurpose (t : String)
  | noThreadingLayer (msg : String)
  | importError (what : String)
  | launchFailed
deriving Repr, DecidableEq

/-- Python's `str.startswith(pre)`: the characters of `pre` are a prefix of
the characters of `s`. -/
def startswith (s pre : String) : Bool := pre.data.isPrefixOf s.data

/-- Python's `str.lower()` restricted to its ASCII behaviour (every mode
string the module compares against is ASCII): lowercase each character. -/
def lowerStr (s : String) : String := String.mk (s.data.map Char.toLower)

/-- The platform-specific TBB library name chosen by
`_check_tbb_version_compatible` (lines 334-341); `none` models the
`ValueError("Unknown operating system")` branch. -/
def libtbbName (p : Platform) : Option String :=
  if p.isWindows = true then some ("tbb")
  else if p.isOSX = true then some ("libtbb.dylib")
  else if p.isLinux = true then some ("libtbb.so.2")
  else none

/-- The warning text issued when TBB is too old (lines 348-354), with `%s`
instantiated to the found interface version. -/
def tbb_old_version_warning (v : Int) : String :=
  "The TBB threading layer requires TBB version 2019.5 or later i.e., " ++
  "TBB_INTERFACE_VERSION >= 11005. Found TBB_INTERFACE_VERSION = " ++
  toString v ++ ". The TBB threading layer is disabled."

/-- `_check_tbb_version_compatible` (lines 328-359).  Returns the list of
warnings issued through `warnings.warn` and, when the check fails, the
message of the resulting `ImportError`.  A `ValueError` (unknown OS) or
`OSError` (CDLL load failure) is caught and re-raised as
`ImportError("Problem with TBB. Reason: %s" % e)`; the OS-dependent `OSError`
text is abstracted to a fixed placeholder. -/
def check_tbb_version_compatible (env : Env) : List String × Option String :=
  match libtbbName env.platform with
  | none => ([], some ("Problem with TBB. Reason: Unknown operating system"))
  | some _ =>
    if env.tbbCDLLPresent = false then
      ([], some ("Problem with TBB. Reason: cannot load library"))
    else if env.tbbIfaceVersion < 11005 then
      ([tbb_old_version_warning env.tbbIfaceVersion],
       some ("Problem with TBB. Reason: interface version too old"))
    else ([], none)

/-- Whether the TBB backend loads: the version-compatibility check passes
and the `tbbpool` import succeeds (lines 374-381). -/
def tbb_loads (env : Env) : Bool :=
  (check_tbb_version_compatible env).2.isNone && env.tbbPoolImportOk

/-- `select_known_backend` (lines 369-394).  Loads a specific threading
layer backend based on its name.  For `tbb`/`omp` an `ImportError` is caught
and `None` is returned; the `workqueue` import (line 390) is *not* inside a
try/except, so its failure propagates. -/
def select_known_backend (env : Env) (backend : String) :
    Except Err (Option Backend) :=
  if startswith backend ("tbb") then
    match (check_tbb_version_compatible env).2 with
    | some _ => Except.ok none
    | none =>
      if env.tbbPoolImportOk = true then Except.ok (some Backend.tbb)
      else Except.ok none
  else if startswith backend ("omp") then
    if env.ompImportOk = true then Except.ok (some Backend.omp)
    else Except.ok none
  else if startswith backend ("workqueue") then
    if env.workqueueImportOk = true then Except.ok (some Backend.workqueue)
    else Except.error (Err.importError ("workqueue"))
  else Except.error (Err.unknownValue backend)

/-- `select_from_backends` (lines 396-407): try the presented backends in
order and return the first that loads together with its name; `(None, '')`
when none loads (the `for`/`else` sets `backend = ''`). -/
def select_from_backends (env : Env) :
    List String → Except Err (Option Backend × String)
  | [] => Except.ok (none, "")
  | b :: rest =>
    match select_known_backend env b with
    | Except.error e => Except.error e
    | Except.ok (some l) => Except.ok (some l, b)
    | Except.ok none => select_from_backends env rest

/-- `namedbackends` (line 410). -/
def namedbackends : List String := [("tbb"), ("omp"), ("workqueue")]

/-- The `err_helpers` dict (lines 413-417). -/
def err_helpers (k : String) : String :=
  if k = ("TBB") then
    "Intel TBB is required, try:\n$ conda/pip install tbb"
  else if k = ("OSX_OMP") then
    "Intel OpenMP is required, try:\n$ conda/pip install intel-openmp"
  else ""

/-- `raise_with_hint` (lines 420-430): the message of the `ValueError`
raised when no threading layer could be loaded, assembled from the
accumulated requirement keys. -/
def raise_with_hint (required : List String) : String :=
  let hint :=
    match required with
    | [] => ""
    | [x] => "HINT:\n" ++ err_helpers x
    | xs => "HINT:\n" ++ ("One of:\n" ++
        String.intercalate ("\nOR\n") (xs.map err_helpers))
  "No threading layer could be loaded.\n" ++ hint

/-- The selection block of `_launch_threads` (lines 409-481), taking the
already-lowercased mode string `t`.  Returns the loaded module (or `none`),
the `libname` the code would record, and the accumulated `requirements`
hint keys; or the error the block raises. -/
def select_phase (env : Env) (t : String) :
    Except Err (Option Backend × String × List String) :=
  if t ∈ namedbackends then
    (select_known_backend env t).map (fun lib =>
      let requirements :=
        if lib.isNone then
          (if t = ("tbb") then [("TBB")]
           else if t = ("omp") ∧ env.platform.isOSX = true then [("OSX_OMP")]
           else [])
        else []
      (lib, t, requirements))
  else if t ∈ [("threadsafe"), ("forksafe"), ("safe")] then
    if t = ("safe") then
      (select_from_backends env [("tbb")]).map
        (fun r => (r.1, r.2, [("TBB")]))
    else if t = ("threadsafe") then
      let requirements := [("TBB")] ++
        (if env.platform.isOSX = true then [("OSX_OMP")] else [])
      (select_from_backends env [("tbb"), ("omp")]).map
        (fun r => (r.1, r.2, requirements))
    else if t = ("forksafe") then
      let requirements := [("TBB")] ++
        (if env.platform.isOSX = true then [("OSX_OMP")] else [])
      let available := [("tbb")] ++
        (if env.platform.isLinux = true then [] else [("omp")]) ++
        [("workqueue")]
      (select_from_backends env available).map
        (fun r => (r.1, r.2, requirements))
    else Except.error (Err.noPurpose t)
  else if t = ("default") then
    (select_from_backends env namedbackends).map (fun r =>
      let requirements :=
        if r.1.isNone then
          [("TBB")] ++ (if env.platform.isOSX = true then [("OSX_OMP")] else [])
        else []
      (r.1, r.2, requirements))
  else Except.error (Err.unknownLayer t)

/-- `_launch_threads` (lines 362-500).  Under the two init locks: return at
once if `_is_initialized`; otherwise lowercase `config.THREADING_LAYER`, run
the selection block, raise `raise_with_hint` if no module was found, call
`lib.launch_threads(NUM_THREADS)`, and only after every fallible step set
`_threading_layer` and `_is_initialized`. -/
def launch_threads (env : Env) (s : State) : State × Option Err :=
  if s.is_initialized = true then (s, none)
  else
    match select_phase env (lowerStr env.threadingLayerConfig) with
    | Except.error e => (s, some e)
    | Except.ok (none, _, requirements) =>
      (s, some (Err.noThreadingLayer (raise_with_hint requirements)))
    | Except.ok (some lib, libname, _) =>
      if env.launchOk = true then
        ({ s with is_initialized := true, threading_layer := some libname,
                  launch_calls := s.launch_calls + 1,
                  launched_backend := some lib }, none)
      else
        ({ s with launch_calls := s.launch_calls + 1 },
         some Err.launchFailed)

/-- Run a sequence of `_launch_threads` calls, threading the state. -/
def run_calls (envs : List Env) (s : State) : State :=
  envs.foldl (fun st e => (launch_threads e st).1) s

/-- The seven mode strings `_launch_threads` recognizes (after
lowercasing). -/
def knownModes : List String :=
  [("tbb"), ("omp"), ("workqueue"), ("threadsafe"), ("forksafe"), ("safe"),
   ("default")]

/-! ## Execution parameter store: `set_num_threads`, `get_num_threads`,
`set_parallel_chunksize` -/

/-- Backend-side mutable execution parameters: the active thread count
(written through the C `set_num_threads` pointer) and the parallel chunk
size (written through the C `set_parallel_chunksize` pointer, a `c_uint`). -/
structure ParamsState where
  backend_num_threads : Int
  backend_chunksize : Nat
deriving Repr, DecidableEq

/-- Errors raised by the parameter-store functions, recording the Python
exception class and message. -/
inductive ParamErr where
  | valueError (msg : String)
  | runtimeError (msg : String)
deriving Repr, DecidableEq

/-- The range-error message built by `gen_snt_check` (lines 522-529) from
`NUMBA_NUM_THREADS`. -/
def snt_msg (numbaNumThreads : Nat) : String :=
  "The number of threads must be between 1 and " ++ toString numbaNumThreads

/-- `snt_check` (lines 526-528): `if n > NUMBA_NUM_THREADS or n < 1: raise
ValueError(msg)`. -/
def snt_check (numbaNumThreads : Nat) (n : Int) : Option String :=
  if n > (numbaNumThreads : Int) ∨ n < 1 then some (snt_msg numbaNumThreads)
  else none

/-- `set_num_threads` (lines 540-567) for an integer argument `n` (the
`isinstance` TypeError branch is outside this model's `Int` domain): run
`snt_check(n)` and only if it passes write `n` to the backend through
`_set_num_threads`.  The `_launch_threads()` call at entry is handled by the
initialization model above. -/
def set_num_threads (numbaNumThreads : Nat) (n : Int) (ps : ParamsState) :
    ParamsState × Option ParamErr :=
  match snt_check numbaNumThreads n with
  | some msg => (ps, some (ParamErr.valueError msg))
  | none => ({ ps with backend_num_threads := n }, none)

/-- The `RuntimeError` message of `get_num_threads` (lines 607-611), with
`%s` instantiated to the reporting thread id and the reported count. -/
def gnt_msg (tid numThreads : Int) : String :=
  "Invalid number of threads. This likely indicates a bug in Numba. " ++
  "(thread_id=" ++ toString tid ++ ", num_threads=" ++ toString numThreads ++
  ")"

/-- `get_num_threads` (lines 583-612): read the backend-reported count; if
it is non-positive raise a `RuntimeError` naming `_get_thread_id()` and the
reported value, else return it unchanged. -/
def get_num_threads (reported tid : Int) : Except ParamErr Int :=
  if reported ≤ 0 then Except.error (ParamErr.runtimeError (gnt_msg tid reported))
  else Except.ok reported

/-- `set_parallel_chunksize` (lines 673-678) for an integer argument `n`:
the body performs no range validation and passes `n` straight to the
backend's `set_parallel_chunksize` through a `CFUNCTYPE(None, c_uint)`
pointer (line 661), so ctypes reduces the value modulo 2^32 with no error. -/
def set_parallel_chunksize (n : Int) (ps : ParamsState) :
    ParamsState × Option ParamErr :=
  ({ ps with backend_chunksize := (n % (2 ^ 32 : Int)).toNat }, none)

/-! ## Range scheduler (chunk-size-0 partitioning) -/

/-- Emit `count` contiguous ranges starting at `start`, each of size `base`,
with the first `rem` ranges getting one extra element. -/
def chunkRanges : Nat → Nat → Nat → Nat → List (Nat × Nat)
  | _, _, _, 0 => []
  | start, base, rem, Nat.succ k =>
    let sz := base + (if 0 < rem then 1 else 0)
    (start, start + sz) :: chunkRanges (start + sz) base (rem - 1) k

/-- Modelled from the spec: the chunk-size-0 partitioning of
`[0, total_count)` performed by the native `do_scheduling_signed` /
`do_scheduling_unsigned` scheduler, which `_launch_threads` only registers
as symbols (parallel.py lines 488-489); the scheduler's own code is not part
of this repository's sources.  Per spec section 4.5: partition as evenly as
possible into exactly `min(thread_count, total_count)` ranges; when
`total_count` does not divide evenly, the first `total_count mod
thread_count` ranges get one extra element; zero ranges when
`total_count = 0`. -/
def schedRanges (total threads : Nat) : List (Nat × Nat) :=
  chunkRanges 0 (total / threads) (total % threads) (min threads total)

/-! ## Helper lemmas on the selection machinery -/

theorem select_known_backend_tbb (env : Env) :
    select_known_backend env ("tbb") =
      Except.ok (if tbb_loads env then some Backend.tbb else none) := by
  unfold select_known_backend tbb_loads
  rw [if_pos (by decide)]
  cases h : (check_tbb_version_compatible env).2 <;>
    cases hp : env.tbbPoolImportOk <;> simp [h, hp]

theorem select_known_backend_omp (env : Env) :
    select_known_backend env ("omp") =
      Except.ok (if env.ompImportOk then some Backend.omp else none) := by
  unfold select_known_backend
  rw [if_neg (by decide), if_pos (by decide)]
  cases hp : env.ompImportOk <;> simp [hp]

theorem select_known_backend_workqueue (env : Env) :
    select_known_backend env ("workqueue") =
      (if env.workqueueImportOk then Except.ok (some Backend.workqueue)
       else Except.error (Err.importError ("workqueue"))) := by
  unfold select_known_backend
  rw [if_neg (by decide), if_neg (by decide), if_pos (by decide)]

theorem select_from_backends_named (env : Env) :
    select_from_backends env namedbackends =
      (if tbb_loads env then Except.ok (some Backend.tbb, ("tbb"))
       else if env.ompImportOk then Except.ok (some Backend.omp, ("omp"))
       else if env.workqueueImportOk then
         Except.ok (some Backend.workqueue, ("workqueue"))
       else Except.error (Err.importError ("workqueue"))) := by
  cases h1 : tbb_loads env <;> cases h2 : env.ompImportOk <;>
    cases h3 : env.workqueueImportOk <;>
      simp [select_from_backends, namedbackends, select_known_backend_tbb,
        select_known_backend_omp, select_known_backend_workqueue, h1, h2, h3]

theorem select_phase_named_tbb (env : Env) :
    select_phase env ("tbb") =
      Except.ok (if tbb_loads env then some Backend.tbb else none, ("tbb"),
        if tbb_loads env then ([] : List String) else [("TBB")]) := by
  unfold select_phase
  rw [if_pos (show ("tbb") ∈ namedbackends by decide)]
  rw [select_known_backend_tbb]
  cases h : tbb_loads env <;> simp [h, Except.map]

theorem select_phase_named_omp (env : Env) :
    select_phase env ("omp") =
      Except.ok (if env.ompImportOk then some Backend.omp else none, ("omp"),
        if env.ompImportOk then ([] : List String)
        else if env.platform.isOSX then [("OSX_OMP")] else []) := by
  unfold select_phase
  rw [if_pos (show ("omp") ∈ namedbackends by decide)]
  rw [select_known_backend_omp]
  cases h : env.ompImportOk <;> cases hx : env.platform.isOSX <;>
    simp [h, hx, Except.map]

theorem select_phase_named_workqueue (env : Env) :
    select_phase env ("workqueue") =
      (if env.workqueueImportOk then
        Except.ok (some Backend.workqueue, ("workqueue"), ([] : List String))
       else Except.error (Err.importError ("workqueue"))) := by
  unfold select_phase
  rw [if_pos (show ("workqueue") ∈ namedbackends by decide)]
  rw [select_known_backend_workqueue]
  cases h : env.workqueueImportOk <;> simp [h, Except.map]

theorem select_phase_safe (env : Env) :
    select_phase env ("safe") =
      Except.ok (if tbb_loads env then some Backend.tbb else none,
        if tbb_loads env then ("tbb") else (""), [("TBB")]) := by
  unfold select_phase
  rw [if_neg (by decide), if_pos (by decide), if_pos rfl]
  cases h : tbb_loads env <;>
    simp [select_from_backends, select_known_backend_tbb, h, Except.map]

theorem select_phase_threadsafe (env : Env) :
    select_phase env ("threadsafe") =
      Except.ok
        (if tbb_loads env then some Backend.tbb
         else if env.ompImportOk then some Backend.omp else none,
         if tbb_loads env then ("tbb")
         else if env.ompImportOk then ("omp") else (""),
         [("TBB")] ++ (if env.platform.isOSX then [("OSX_OMP")] else [])) := by
  unfold select_phase
  rw [if_neg (by decide), if_pos (by decide), if_neg (by decide), if_pos rfl]
  cases h1 : tbb_loads env <;> cases h2 : env.ompImportOk <;>
    cases hx : env.platform.isOSX <;>
      simp [select_from_backends, select_known_backend_tbb,
        select_known_backend_omp, h1, h2, hx, Except.map]

theorem select_phase_forksafe_linux (env : Env)
    (hl : env.platform.isLinux = true) :
    select_phase env ("forksafe") =
      (if tbb_loads env then
        Except.ok (some Backend.tbb, ("tbb"),
          [("TBB")] ++ (if env.platform.isOSX then [("OSX_OMP")] else []))
       else if env.workqueueImportOk then
        Except.ok (some Backend.workqueue, ("workqueue"),
          [("TBB")] ++ (if env.platform.isOSX then [("OSX_OMP")] else []))
       else Except.error (Err.importError ("workqueue"))) := by
  unfold select_phase
  rw [if_neg (by decide), if_pos (by decide), if_neg (by decide),
    if_neg (by decide), if_pos rfl]
  cases h1 : tbb_loads env <;> cases h3 : env.workqueueImportOk <;>
    cases hx : env.platform.isOSX <;>
      simp [select_from_backends, select_known_backend_tbb,
        select_known_backend_workqueue, h1, h3, hx, hl, Except.map]

theorem select_phase_forksafe_nonlinux (env : Env)
    (hl : env.platform.isLinux = false) :
    select_phase env ("forksafe") =
      (if tbb_loads env then
        Except.ok (some Backend.tbb, ("tbb"),
          [("TBB")] ++ (if env.platform.isOSX then [("OSX_OMP")] else []))
       else if env.ompImportOk then
        Except.ok (some Backend.omp, ("omp"),
          [("TBB")] ++ (if env.platform.isOSX then [("OSX_OMP")] else []))
       else if env.workqueueImportOk then
        Except.ok (some Backend.workqueue, ("workqueue"),
          [("TBB")] ++ (if env.platform.isOSX then [("OSX_OMP")] else []))
       else Except.error (Err.importError ("workqueue"))) := by
  unfold select_phase
  rw [if_neg (by decide), if_pos (by decide), if_neg (by decide),
    if_neg (by decide), if_pos rfl]
  cases h1 : tbb_loads env <;> cases h2 : env.ompImportOk <;>
    cases h3 : env.workqueueImportOk <;> cases hx : env.platform.isOSX <;>
      simp [select_from_backends, select_known_backend_tbb,
        select_known_backend_omp, select_known_backend_workqueue,
        h1, h2, h3, hx, hl, Except.map]

theorem select_phase_default (env : Env) :
    select_phase env ("default") =
      (if tbb_loads env then
        Except.ok (some Backend.tbb, ("tbb"), ([] : List String))
       else if env.ompImportOk then
        Except.ok (some Backend.omp, ("omp"), ([] : List String))
       else if env.workqueueImportOk then
        Except.ok (some Backend.workqueue, ("workqueue"), ([] : List String))
       else Except.error (Err.importError ("workqueue"))) := by
  unfold select_phase
  rw [if_neg (by decide), if_neg (by decide), if_pos rfl]
  rw [select_from_backends_named]
  cases h1 : tbb_loads env <;> cases h2 : env.ompImportOk <;>
    cases h3 : env.workqueueImportOk <;> simp [h1, h2, h3, Except.map]

theorem select_phase_unknown (env : Env) (t : String)
    (h : t ∉ knownModes) :
    select_phase env t = Except.error (Err.unknownLayer t) := by
  have h1 : t ∉ namedbackends := by
    intro hc
    exact h (by
      simp only [namedbackends, knownModes, List.mem_cons] at hc ⊢
      tauto)
  have h2 : t ∉ [("threadsafe"), ("forksafe"), ("safe")] := by
    intro hc
    exact h (by
      simp only [knownModes, List.mem_cons] at hc ⊢
      tauto)
  have h3 : ¬ (t = ("default")) := by
    intro hc
    exact h (by simp only [knownModes, List.mem_cons]; tauto)
  unfold select_phase
  rw [if_neg h1, if_neg h2, if_neg h3]

/-! ## Initialization-gate lemmas -/

theorem launch_threads_noop (env : Env) (s : State)
    (h : s.is_initialized = true) : launch_threads env s = (s, none) := by
  unfold launch_threads
  rw [if_pos h]

theorem run_calls_ready (envs : List Env) (s : State)
    (h : s.is_initialized = true) : run_calls envs s = s := by
  induction envs with
  | nil => rfl
  | cons e es ih =>
    show run_calls es (launch_threads e s).1 = s
    rw [launch_threads_noop e s h]
    exact ih

theorem launch_threads_success (env : Env) (s : State)
    (h0 : s.is_initialized = false)
    (h2 : (launch_threads env s).2 = none) :
    (launch_threads env s).1.is_initialized = true ∧
    (launch_threads env s).1.launch_calls = s.launch_calls + 1 := by
  unfold launch_threads at h2 ⊢
  rw [if_neg (by simp [h0])] at h2 ⊢
  generalize hr : select_phase env (lowerStr env.threadingLayerConfig) = r
    at h2 ⊢
  cases r with
  | error e => simp at h2
  | ok p =>
    rcases p with ⟨lib, nm, reqs⟩
    cases lib with
    | none => simp at h2
    | some l =>
      cases hl : env.launchOk with
      | false => rw [hl] at h2; simp at h2
      | true => simp

theorem launch_threads_error_state (env : Env) (s : State)
    (h2 : (launch_threads env s).2.isSome = true) :
    (launch_threads env s).1.is_initialized = s.is_initialized ∧
    (launch_threads env s).1.threading_layer = s.threading_layer := by
  unfold launch_threads at h2 ⊢
  by_cases h : s.is_initialized = true
  · rw [if_pos h] at h2; simp at h2
  · rw [if_neg h] at h2 ⊢
    generalize hr : select_phase env (lowerStr env.threadingLayerConfig) = r
      at h2 ⊢
    cases r with
    | error e => simp
    | ok p =>
      rcases p with ⟨lib, nm, reqs⟩
      cases lib with
      | none => simp
      | some l =>
        cases hl : env.launchOk with
        | false => simp
        | true => rw [hl] at h2; simp at h2

/-- An environment in which a retry of `_launch_threads` is guaranteed to
succeed: the configured layer lowercases to `default`, the always-bundled
`workqueue` backend imports, and the native launch call succeeds. -/
def good_env (env : Env) : Prop :=
  lowerStr env.threadingLayerConfig = ("default") ∧
  env.workqueueImportOk = true ∧ env.launchOk = true

theorem launch_threads_good (env : Env) (good : good_env env) (s : State)
    (h0 : s.is_initialized = false) :
    (launch_threads env s).2 = none ∧
    (launch_threads env s).1.is_initialized = true := by
  unfold launch_threads
  rw [if_neg (by simp [h0]), good.1, select_phase_default]
  cases h1 : tbb_loads env <;> cases h2 : env.ompImportOk <;>
    simp [h1, h2, good.2.1, good.2.2]

/-! ## Concrete environments used by witnesses and counterexamples -/

def platformLinux : Platform :=
  { isWindows := false, isOSX := false, isLinux := true }

def platformOSX : Platform :=
  { isWindows := false, isOSX := true, isLinux := false }

/-- A fully healthy Linux process in `default` mode. -/
def envGood : Env :=
  { threadingLayerConfig := ("default"), platform := platformLinux,
    tbbCDLLPresent := true, tbbIfaceVersion := 12000,
    tbbPoolImportOk := true, ompImportOk := true, workqueueImportOk := true,
    launchOk := true }

/-- A Linux process in `default` mode in which no backend can be imported. -/
def envNoBackends : Env :=
  { threadingLayerConfig := ("default"), platform := platformLinux,
    tbbCDLLPresent := false, tbbIfaceVersion := 0,
    tbbPoolImportOk := false, ompImportOk := false,
    workqueueImportOk := false, launchOk := true }

/-! ## Claim-side selection-order description (C3) -/

/-- Stated from the claim's words (not from the code): the candidate order
C3 asserts for each mode — `default` tries tbb, omp, workqueue; `safe` only
tbb; `threadsafe` tbb then omp; `forksafe` tbb, then omp only off Linux,
then workqueue; a specific backend name tries exactly that backend. -/
def claimed_candidate_order (t : String) (p : Platform) : List String :=
  if t = ("default") then [("tbb"), ("omp"), ("workqueue")]
  else if t = ("safe") then [("tbb")]
  else if t = ("threadsafe") then [("tbb"), ("omp")]
  else if t = ("forksafe") then
    [("tbb")] ++ (if p.isLinux then [] else [("omp")]) ++ [("workqueue")]
  else [t]

/-- Whether a named backend loads successfully in environment `env`. -/
def backend_loads (env : Env) (b : String) : Bool :=
  if b = ("tbb") then tbb_loads env
  else if b = ("omp") then env.ompImportOk
  else if b = ("workqueue") then env.workqueueImportOk
  else false

/-- The module a backend name denotes. -/
def backend_of (n : String) : Backend :=
  if n = ("tbb") then Backend.tbb
  else if n = ("omp") then Backend.omp
  else Backend.workqueue

/-- The backend (with its recorded name) a selection outcome settled on, if
any. -/
def selected (r : Except Err (Option Backend × String × List String)) :
    Option (Backend × String) :=
  match r with
  | Except.ok (some l, nm, _) => some (l, nm)
  | _ => none

/-! ## Claim theorems -/

/-- C3: For every recognized mode, the selection block settles on a backend
exactly when the candidate list the claim states for that mode — tried in
that order — contains a loadable candidate, and it settles on the first
such candidate, returned together with its name. -/
theorem backend_selection_order :
    ∀ env t, t ∈ knownModes →
      selected (select_phase env t) =
        ((claimed_candidate_order t env.platform).find?
          (backend_loads env)).map (fun n => (backend_of n, n)) := by
  intro env t ht
  simp only [knownModes, List.mem_cons, List.not_mem_nil, or_false] at ht
  rcases ht with rfl | rfl | rfl | rfl | rfl | rfl | rfl
  · rw [select_phase_named_tbb]
    cases h1 : tbb_loads env <;>
      simp [selected, claimed_candidate_order, backend_loads, backend_of,
        List.find?, h1]
  · rw [select_phase_named_omp]
    cases h2 : env.ompImportOk <;>
      simp [selected, claimed_candidate_order, backend_loads, backend_of,
        List.find?, h2]
  · rw [select_phase_named_workqueue]
    cases h3 : env.workqueueImportOk <;>
      simp [selected, claimed_candidate_order, backend_loads, backend_of,
        List.find?, h3]
  · rw [select_phase_threadsafe]
    cases h1 : tbb_loads env <;> cases h2 : env.ompImportOk <;>
      simp [selected, claimed_candidate_order, backend_loads, backend_of,
        List.find?, h1, h2]
  · cases hl : env.platform.isLinux
    · rw [select_phase_forksafe_nonlinux env hl]
      cases h1 : tbb_loads env <;> cases h2 : env.ompImportOk <;>
        cases h3 : env.workqueueImportOk <;>
          simp [selected, claimed_candidate_order, backend_loads, backend_of,
            List.find?, h1, h2, h3, hl]
    · rw [select_phase_forksafe_linux env hl]
      cases h1 : tbb_loads env <;> cases h3 : env.workqueueImportOk <;>
        simp [selected, claimed_candidate_order, backend_loads, backend_of,
          List.find?, h1, h3, hl]
  · rw [select_phase_safe]
    cases h1 : tbb_loads env <;>
      simp [selected, claimed_candidate_order, backend_loads, backend_of,
        List.find?, h1]
  · rw [select_phase_default]
    cases h1 : tbb_loads env <;> cases h2 : env.ompImportOk <;>
      cases h3 : env.workqueueImportOk <;>
        simp [selected, claimed_candidate_order, backend_loads, backend_of,
          List.find?, h1, h2, h3]

/-- Witness for C3: in `default` mode with TBB unavailable but OpenMP
available, the first loadable candidate (omp) is selected. -/
theorem backend_selection_order_witness :
    selected (select_phase { envNoBackends with ompImportOk := true }
        ("default")) = some (Backend.omp, ("omp")) ∧
    ("default") ∈ knownModes := by
  constructor
  · rw [backend_selection_order { envNoBackends with ompImportOk := true }
      ("default") (by decide)]
    decide
  · decide

/-- C1: Initialization is idempotent and exactly-once.  Once
`_is_initialized` is set, `_launch_threads` returns the state unchanged with
no error (no backend selection, no further `launch_threads` backend call, no
state mutation), and any further sequence of calls leaves the state — in
particular the launch-call count — untouched; the first successful call
from the uninitialized state performs exactly one backend launch and sets
the flag; the initialized flag never regresses. -/
theorem launch_threads_exactly_once :
    (∀ env s, s.is_initialized = true →
      launch_threads env s = (s, none) ∧ ∀ envs, run_calls envs s = s) ∧
    (∀ env s, s.is_initialized = false → (launch_threads env s).2 = none →
      (launch_threads env s).1.is_initialized = true ∧
      (launch_threads env s).1.launch_calls = s.launch_calls + 1) ∧
    (∀ env s, s.is_initialized = true →
      ((launch_threads env s).1).is_initialized = true) := by
  refine ⟨fun env s h => ⟨launch_threads_noop env s h,
    fun envs => run_calls_ready envs s h⟩,
    fun env s h0 h2 => launch_threads_success env s h0 h2,
    fun env s h => ?_⟩
  rw [launch_threads_noop env s h]
  exact h

/-- Witness for C1 at concrete inputs: a ready state is left untouched by
one call and by a sequence of calls, and the first successful call from the
fresh state launches exactly once. -/
theorem launch_threads_exactly_once_witness :
    launch_threads envGood
        { is_initialized := true, threading_layer := some ("tbb"),
          launch_calls := 1, launched_backend := some Backend.tbb } =
      ({ is_initialized := true, threading_layer := some ("tbb"),
         launch_calls := 1, launched_backend := some Backend.tbb }, none) ∧
    run_calls [envGood, envNoBackends]
        { is_initialized := true, threading_layer := some ("tbb"),
          launch_calls := 1, launched_backend := some Backend.tbb } =
      { is_initialized := true, threading_layer := some ("tbb"),
        launch_calls := 1, launched_backend := some Backend.tbb } ∧
    (launch_threads envGood initState).1.is_initialized = true ∧
    (launch_threads envGood initState).1.launch_calls = 1 := by
  refine ⟨(launch_threads_exactly_once.1 envGood _ rfl).1,
    (launch_threads_exactly_once.1 envGood _ rfl).2 _,
    (launch_threads_exactly_once.2.1 envGood initState rfl (by decide)).1,
    (launch_threads_exactly_once.2.1 envGood initState rfl (by decide)).2⟩

/-- C2: Any failure of the initialization sequence (unknown mode, no
backend loadable, backend launch raising) leaves `_is_initialized` unset and
`_threading_layer` unset, the error propagates (the call's second component
is the raised error), and a subsequent call from the resulting state re-runs
the full sequence — in a good environment it then selects a backend,
launches it and reaches the initialized state. -/
theorem launch_threads_failure_leaves_uninitialized :
    ∀ env s, s.is_initialized = false → s.threading_layer = none →
      (launch_threads env s).2.isSome = true →
      (launch_threads env s).1.is_initialized = false ∧
      (launch_threads env s).1.threading_layer = none ∧
      (∀ env2, good_env env2 →
        (launch_threads env2 (launch_threads env s).1).2 = none ∧
        (launch_threads env2 (launch_threads env s).1).1.is_initialized =
          true) := by
  intro env s h0 hl h2
  obtain ⟨hi, ht⟩ := launch_threads_error_state env s h2
  refine ⟨hi.trans h0, ht.trans hl, fun env2 good =>
    launch_threads_good env2 good _ (hi.trans h0)⟩

/-- Witness for C2: requesting the unavailable `tbb` layer fails, leaves
the flags unset, and a retry in a good environment succeeds. -/
theorem launch_threads_failure_leaves_uninitialized_witness :
    (launch_threads { envNoBackends with threadingLayerConfig := ("tbb") }
        initState).1.is_initialized = false ∧
    (launch_threads { envNoBackends with threadingLayerConfig := ("tbb") }
        initState).1.threading_layer = none ∧
    (launch_threads envGood
      (launch_threads { envNoBackends with threadingLayerConfig := ("tbb") }
        initState).1).1.is_initialized = true := by
  have h := launch_threads_failure_leaves_uninitialized
    { envNoBackends with threadingLayerConfig := ("tbb") } initState
    rfl rfl (by decide)
  exact ⟨h.1, h.2.1, (h.2.2 envGood (by refine ⟨by decide, rfl, rfl⟩)).2⟩

/-- Counterexample to C4 as stated: the claim asserts that *every*
candidate that fails to load is treated as unavailable rather than fatal,
but an attempted `workqueue` candidate whose import fails makes
`select_known_backend` raise an uncaught `ImportError` (line 390 has no
try/except), and in `default` mode with nothing loadable `_launch_threads`
propagates that `ImportError` instead of continuing to the no-layer
aggregation. -/
theorem workqueue_failure_fatal_cex :
    select_known_backend envNoBackends ("workqueue") =
      Except.error (Err.importError ("workqueue")) ∧
    launch_threads envNoBackends initState =
      (initState, some (Err.importError ("workqueue"))) := by
  exact ⟨rfl, rfl⟩

/-- C4 (amended): a failing `tbb` or `omp` candidate — including a present
TBB whose interface version is below 11005, which additionally issues the
descriptive warning — is treated as unavailable (`None`), and
`select_from_backends` proceeds past it to the next candidate; a failing
`workqueue` candidate, by contrast, raises an uncaught `ImportError`. -/
theorem optional_backend_failure_nonfatal :
    ∀ env,
      (tbb_loads env = false →
        select_known_backend env ("tbb") = Except.ok none) ∧
      (env.ompImportOk = false →
        select_known_backend env ("omp") = Except.ok none) ∧
      (env.tbbCDLLPresent = true → libtbbName env.platform ≠ none →
        env.tbbIfaceVersion < 11005 →
        (check_tbb_version_compatible env).1 =
          [tbb_old_version_warning env.tbbIfaceVersion] ∧
        select_known_backend env ("tbb") = Except.ok none) ∧
      (∀ rest, tbb_loads env = false →
        select_from_backends env (("tbb") :: rest) =
          select_from_backends env rest) ∧
      (∀ rest, env.ompImportOk = false →
        select_from_backends env (("omp") :: rest) =
          select_from_backends env rest) ∧
      (env.workqueueImportOk = false →
        select_known_backend env ("workqueue") =
          Except.error (Err.importError ("workqueue"))) := by
  intro env
  have hver : ∀ (hc : env.tbbCDLLPresent = true),
      libtbbName env.platform ≠ none → env.tbbIfaceVersion < 11005 →
      (check_tbb_version_compatible env).1 =
        [tbb_old_version_warning env.tbbIfaceVersion] ∧
      (check_tbb_version_compatible env).2.isSome = true := by
    intro hc hn hv
    unfold check_tbb_version_compatible
    cases hname : libtbbName env.platform with
    | none => exact absurd hname hn
    | some nm =>
      rw [if_neg (by simp [hc]), if_pos hv]
      exact ⟨rfl, rfl⟩
  refine ⟨fun h => by rw [select_known_backend_tbb]; simp [h],
    fun h => by rw [select_known_backend_omp]; simp [h],
    fun hc hn hv => ⟨(hver hc hn hv).1, ?_⟩,
    fun rest h => by
      simp [select_from_backends, select_known_backend_tbb, h],
    fun rest h => by
      simp [select_from_backends, select_known_backend_omp, h],
    fun h => by rw [select_known_backend_workqueue]; simp [h]⟩
  rw [select_known_backend_tbb]
  have : tbb_loads env = false := by
    unfold tbb_loads
    rcases (hver hc hn hv).2 with h2
    cases hck : (check_tbb_version_compatible env).2 with
    | none => rw [hck] at h2; simp at h2
    | some m => simp
  simp [this]

/-- Witness for C4 (amended) at concrete inputs: an old-version TBB is
skipped with the warning and selection proceeds to the next candidate, while
a missing workqueue is a hard error. -/
theorem optional_backend_failure_nonfatal_witness :
    select_known_backend { envGood with tbbIfaceVersion := 9000 } ("tbb") =
      Except.ok none ∧
    (check_tbb_version_compatible
        { envGood with tbbIfaceVersion := 9000 }).1 =
      [tbb_old_version_warning 9000] ∧
    select_from_backends { envGood with tbbIfaceVersion := 9000 }
        [("tbb"), ("omp")] =
      select_from_backends { envGood with tbbIfaceVersion := 9000 }
        [("omp")] ∧
    select_known_backend envNoBackends ("omp") = Except.ok none := by
  have h := optional_backend_failure_nonfatal
    { envGood with tbbIfaceVersion := 9000 }
  refine ⟨(h.2.2.1 rfl (by decide) (by decide)).2,
    (h.2.2.1 rfl (by decide) (by decide)).1,
    h.2.2.2.1 [("omp")] (by decide),
    (optional_backend_failure_nonfatal envNoBackends).2.1 rfl⟩

/-- Counterexample to C5 as stated, at two concrete inputs.  First, in
`forksafe` mode with no loadable candidate, `_launch_threads` does not fail
with the hint-enumerating `ValueError`: the unavailable `workqueue`
candidate at the end of the list raises an uncaught `ImportError` first.
Second, a named `omp` request failing off macOS raises the `ValueError`
with no hint at all — in particular not the TBB install hint the claim
asserts for the attempted candidates (lines 440-441 append only `OSX_OMP`,
and only on macOS). -/
theorem no_layer_error_not_hint_cex :
    launch_threads { envNoBackends with threadingLayerConfig := ("forksafe") }
        initState =
      (initState, some (Err.importError ("workqueue"))) ∧
    launch_threads { envNoBackends with threadingLayerConfig := ("omp") }
        initState =
      (initState, some (Err.noThreadingLayer
        ("No threading layer could be loaded.\n"))) := by
  constructor <;> decide

/-- C5 (amended): when no candidate backend loads, the failure depends on
the mode.  Modes `tbb`, `safe` and `threadsafe` fail with the `ValueError`
whose message enumerates the hints relevant to the attempted candidates —
the TBB install hint, plus, on macOS in `threadsafe` mode, the Intel OpenMP
hint — without duplicates, in that order, joined as explicit `OR`
alternatives when both apply.  Mode `omp` fails with the `ValueError`
carrying only the Intel OpenMP hint on macOS and no hint elsewhere (never
the TBB hint).  In the modes whose candidate list ends with `workqueue`
(`default`, `forksafe`, and named `workqueue`), the unavailable `workqueue`
raises an uncaught `ImportError` instead of the hint-enumerating error. -/
theorem raise_with_hint_enumerates :
    (∀ env s, s.is_initialized = false → tbb_loads env = false →
      env.ompImportOk = false → env.platform.isOSX = true →
      lowerStr env.threadingLayerConfig = ("threadsafe") →
      launch_threads env s =
        (s, some (Err.noThreadingLayer
          ("No threading layer could be loaded.\nHINT:\nOne of:\n" ++
           "Intel TBB is required, try:\n$ conda/pip install tbb\nOR\n" ++
           "Intel OpenMP is required, try:\n" ++
           "$ conda/pip install intel-openmp")))) ∧
    (∀ env s, s.is_initialized = false → tbb_loads env = false →
      env.ompImportOk = false → env.platform.isOSX = false →
      lowerStr env.threadingLayerConfig = ("threadsafe") →
      launch_threads env s =
        (s, some (Err.noThreadingLayer
          ("No threading layer could be loaded.\nHINT:\n" ++
           "Intel TBB is required, try:\n$ conda/pip install tbb")))) ∧
    (∀ env s, s.is_initialized = false → tbb_loads env = false →
      lowerStr env.threadingLayerConfig = ("safe") →
      launch_threads env s =
        (s, some (Err.noThreadingLayer
          ("No threading layer could be loaded.\nHINT:\n" ++
           "Intel TBB is required, try:\n$ conda/pip install tbb")))) ∧
    (∀ env s, s.is_initialized = false → tbb_loads env = false →
      lowerStr env.threadingLayerConfig = ("tbb") →
      launch_threads env s =
        (s, some (Err.noThreadingLayer
          ("No threading layer could be loaded.\nHINT:\n" ++
           "Intel TBB is required, try:\n$ conda/pip install tbb")))) ∧
    (∀ env s, s.is_initialized = false → env.ompImportOk = false →
      env.platform.isOSX = false →
      lowerStr env.threadingLayerConfig = ("omp") →
      launch_threads env s =
        (s, some (Err.noThreadingLayer
          ("No threading layer could be loaded.\n")))) ∧
    (∀ env s, s.is_initialized = false → env.ompImportOk = false →
      env.platform.isOSX = true →
      lowerStr env.threadingLayerConfig = ("omp") →
      launch_threads env s =
        (s, some (Err.noThreadingLayer
          ("No threading layer could be loaded.\nHINT:\n" ++
           "Intel OpenMP is required, try:\n" ++
           "$ conda/pip install intel-openmp")))) ∧
    (∀ env s, s.is_initialized = false → env.workqueueImportOk = false →
      lowerStr env.threadingLayerConfig = ("workqueue") →
      launch_threads env s = (s, some (Err.importError ("workqueue")))) ∧
    (∀ env s, s.is_initialized = false → tbb_loads env = false →
      env.ompImportOk = false → env.workqueueImportOk = false →
      lowerStr env.threadingLayerConfig = ("forksafe") →
      launch_threads env s = (s, some (Err.importError ("workqueue")))) ∧
    (∀ env s, s.is_initialized = false → tbb_loads env = false →
      env.ompImportOk = false → env.workqueueImportOk = false →
      lowerStr env.threadingLayerConfig = ("default") →
      launch_threads env s = (s, some (Err.importError ("workqueue")))) := by
  refine ⟨?_, ?_, ?_, ?_, ?_, ?_, ?_, ?_, ?_⟩
  · intro env s h0 h1 h2 hx hc
    unfold launch_threads
    rw [if_neg (by simp [h0]), hc, select_phase_threadsafe]
    simp [h1, h2, hx, raise_with_hint, err_helpers]
    decide
  · intro env s h0 h1 h2 hx hc
    unfold launch_threads
    rw [if_neg (by simp [h0]), hc, select_phase_threadsafe]
    simp [h1, h2, hx, raise_with_hint, err_helpers]
  · intro env s h0 h1 hc
    unfold launch_threads
    rw [if_neg (by simp [h0]), hc, select_phase_safe]
    simp [h1, raise_with_hint, err_helpers]
  · intro env s h0 h1 hc
    unfold launch_threads
    rw [if_neg (by simp [h0]), hc, select_phase_named_tbb]
    simp [h1, raise_with_hint, err_helpers]
  · intro env s h0 h2 hx hc
    unfold launch_threads
    rw [if_neg (by simp [h0]), hc, select_phase_named_omp]
    simp [h2, hx, raise_with_hint, err_helpers]
  · intro env s h0 h2 hx hc
    unfold launch_threads
    rw [if_neg (by simp [h0]), hc, select_phase_named_omp]
    simp [h2, hx, raise_with_hint, err_helpers]
  · intro env s h0 h3 hc
    unfold launch_threads
    rw [if_neg (by simp [h0]), hc, select_phase_named_workqueue]
    simp [h3]
  · intro env s h0 h1 h2 h3 hc
    unfold launch_threads
    rw [if_neg (by simp [h0]), hc]
    cases hl : env.platform.isLinux
    · rw [select_phase_forksafe_nonlinux env hl]
      simp [h1, h2, h3]
    · rw [select_phase_forksafe_linux env hl]
      simp [h1, h3]
  · intro env s h0 h1 h2 h3 hc
    unfold launch_threads
    rw [if_neg (by simp [h0]), hc, select_phase_default]
    simp [h1, h2, h3]

/-- Witness for C5 (amended): on macOS in `threadsafe` mode with neither
TBB nor OpenMP loadable, the raised error's message lists both hints joined
by OR; in `safe` mode only the TBB hint appears; in named `omp` mode on
macOS only the Intel OpenMP hint appears (no TBB hint). -/
theorem raise_with_hint_enumerates_witness :
    launch_threads
        { envNoBackends with
          threadingLayerConfig := ("threadsafe"),
          platform := platformOSX } initState =
      (initState, some (Err.noThreadingLayer
        ("No threading layer could be loaded.\nHINT:\nOne of:\n" ++
         "Intel TBB is required, try:\n$ conda/pip install tbb\nOR\n" ++
         "Intel OpenMP is required, try:\n" ++
         "$ conda/pip install intel-openmp"))) ∧
    launch_threads { envNoBackends with threadingLayerConfig := ("safe") }
        initState =
      (initState, some (Err.noThreadingLayer
        ("No threading layer could be loaded.\nHINT:\n" ++
         "Intel TBB is required, try:\n$ conda/pip install tbb"))) ∧
    launch_threads
        { envNoBackends with
          threadingLayerConfig := ("omp"),
          platform := platformOSX } initState =
      (initState, some (Err.noThreadingLayer
        ("No threading layer could be loaded.\nHINT:\n" ++
         "Intel OpenMP is required, try:\n" ++
         "$ conda/pip install intel-openmp"))) := by
  exact ⟨raise_with_hint_enumerates.1
      { envNoBackends with
        threadingLayerConfig := ("threadsafe"),
        platform := platformOSX } initState rfl (by decide) rfl rfl
      (by decide),
    raise_with_hint_enumerates.2.2.1
      { envNoBackends with threadingLayerConfig := ("safe") } initState rfl
      (by decide) (by decide),
    raise_with_hint_enumerates.2.2.2.2.2.1
      { envNoBackends with
        threadingLayerConfig := ("omp"),
        platform := platformOSX } initState rfl rfl rfl (by decide)⟩

/-- C6: `set_num_threads` validates `1 ≤ n ≤ NUMBA_NUM_THREADS`: it rejects
`n = 0` and `n = NUMBA_NUM_THREADS + 1` with the `ValueError` naming the
valid bounds, accepts `n = 1` and `n = NUMBA_NUM_THREADS` (writing the value
to the backend), and leaves the backend state untouched on every rejected
call. -/
theorem set_num_threads_range_check :
    ∀ (numbaNumThreads : Nat) (ps : ParamsState), 1 ≤ numbaNumThreads →
      set_num_threads numbaNumThreads 0 ps =
        (ps, some (ParamErr.valueError (snt_msg numbaNumThreads))) ∧
      set_num_threads numbaNumThreads ((numbaNumThreads : Int) + 1) ps =
        (ps, some (ParamErr.valueError (snt_msg numbaNumThreads))) ∧
      set_num_threads numbaNumThreads 1 ps =
        ({ ps with backend_num_threads := 1 }, none) ∧
      set_num_threads numbaNumThreads (numbaNumThreads : Int) ps =
        ({ ps with backend_num_threads := (numbaNumThreads : Int) }, none) ∧
      (∀ n e, (set_num_threads numbaNumThreads n ps).2 = some e →
        (set_num_threads numbaNumThreads n ps).1 = ps) ∧
      snt_msg numbaNumThreads =
        "The number of threads must be between 1 and " ++
          toString numbaNumThreads := by
  intro numbaNumThreads ps h
  have hn : ¬ ((1 : Int) > (numbaNumThreads : Int)) := by
    push_neg
    exact_mod_cast h
  refine ⟨?_, ?_, ?_, ?_, ?_, rfl⟩
  · unfold set_num_threads snt_check
    rw [if_pos (Or.inr (by norm_num))]
  · unfold set_num_threads snt_check
    rw [if_pos (Or.inl (by omega))]
  · unfold set_num_threads snt_check
    rw [if_neg (by push_neg; constructor <;> omega)]
  · unfold set_num_threads snt_check
    rw [if_neg (by push_neg; constructor <;> omega)]
  · intro n e he
    unfold set_num_threads at he ⊢
    cases hc : snt_check numbaNumThreads n with
    | none => rw [hc] at he; simp at he
    | some m => rfl

/-- Witness for C6 at `NUMBA_NUM_THREADS = 4`: 0 and 5 are rejected without
a backend write, 1 and 4 are accepted. -/
theorem set_num_threads_range_check_witness :
    set_num_threads 4 0 { backend_num_threads := 4, backend_chunksize := 0 } =
      ({ backend_num_threads := 4, backend_chunksize := 0 },
       some (ParamErr.valueError (snt_msg 4))) ∧
    set_num_threads 4 5 { backend_num_threads := 4, backend_chunksize := 0 } =
      ({ backend_num_threads := 4, backend_chunksize := 0 },
       some (ParamErr.valueError (snt_msg 4))) ∧
    set_num_threads 4 1 { backend_num_threads := 4, backend_chunksize := 0 } =
      ({ backend_num_threads := 1, backend_chunksize := 0 }, none) ∧
    set_num_threads 4 4 { backend_num_threads := 1, backend_chunksize := 0 } =
      ({ backend_num_threads := 4, backend_chunksize := 0 }, none) := by
  have h4 := set_num_threads_range_check 4
    { backend_num_threads := 4, backend_chunksize := 0 } (by norm_num)
  have h1 := set_num_threads_range_check 4
    { backend_num_threads := 1, backend_chunksize := 0 } (by norm_num)
  exact ⟨h4.1, by exact_mod_cast h4.2.1, h4.2.2.1,
    by have := h1.2.2.2.1; norm_num at this ⊢; exact this⟩

/-- C7: `get_num_threads` returns the backend-reported count unchanged
exactly when it is positive, and raises the `RuntimeError` carrying the
reporting thread id and the reported value exactly when the count is
non-positive; an `ok` result always equals the reported value (never
clamped). -/
theorem get_num_threads_consistency :
    ∀ (reported tid : Int),
      (get_num_threads reported tid = Except.ok reported ↔ 0 < reported) ∧
      (get_num_threads reported tid =
          Except.error (ParamErr.runtimeError (gnt_msg tid reported)) ↔
        reported ≤ 0) ∧
      (∀ w, get_num_threads reported tid = Except.ok w → w = reported) := by
  intro reported tid
  unfold get_num_threads
  by_cases h : reported ≤ 0
  · rw [if_pos h]
    refine ⟨⟨fun hc => by simp at hc, fun hc => absurd h (by omega)⟩,
      ⟨fun _ => h, fun _ => rfl⟩, fun w hw => by simp at hw⟩
  · rw [if_neg h]
    refine ⟨⟨fun _ => by omega, fun _ => rfl⟩,
      ⟨fun hc => by simp at hc, fun hc => absurd hc h⟩,
      fun w hw => by simpa using hw.symm⟩

/-- Witness for C7: a reported count of 4 is returned unchanged; a reported
count of 0 raises the diagnostic error naming thread id 7 and value 0. -/
theorem get_num_threads_consistency_witness :
    get_num_threads 4 7 = Except.ok 4 ∧
    get_num_threads 0 7 =
      Except.error (ParamErr.runtimeError (gnt_msg 7 0)) := by
  exact ⟨((get_num_threads_consistency 4 7).1).2 (by norm_num),
    ((get_num_threads_consistency 0 7).2.1).2 (by norm_num)⟩

/-- C8: `set_parallel_chunksize` never reports an error for any integer
argument; in particular a negative chunk size is *not* rejected — the value
is reduced modulo 2^32 by the `c_uint` ctypes signature and written to the
backend, so `set_parallel_chunksize(-1)` silently installs chunk size
4294967295 (mutating the backend state whenever its chunk size differed).
This contradicts the claim's requirement that a negative chunk size be
reported synchronously as an error with no state mutation. -/
theorem set_parallel_chunksize_negative_wraps :
    ∀ ps : ParamsState,
      (∀ n : Int, (set_parallel_chunksize n ps).2 = none) ∧
      (∀ n : Int, 0 ≤ n → n < 2 ^ 32 →
        set_parallel_chunksize n ps =
          ({ ps with backend_chunksize := n.toNat }, none)) ∧
      set_parallel_chunksize (-1) ps =
        ({ ps with backend_chunksize := 4294967295 }, none) ∧
      (ps.backend_chunksize ≠ 4294967295 →
        (set_parallel_chunksize (-1) ps).1 ≠ ps) := by
  intro ps
  refine ⟨fun n => rfl, fun n h0 hlt => ?_, by rfl, fun hne => ?_⟩
  · unfold set_parallel_chunksize
    rw [Int.emod_eq_of_lt h0 (by norm_num at hlt; exact hlt)]
  · intro hc
    exact hne (by rw [← hc]; rfl)

/-- Witness for C8's theorem: at a concrete backend state with chunk size 0,
`set_parallel_chunksize(-1)` succeeds (no error) and mutates the chunk size
to 4294967295. -/
theorem set_parallel_chunksize_negative_wraps_witness :
    set_parallel_chunksize (-1)
        { backend_num_threads := 4, backend_chunksize := 0 } =
      ({ backend_num_threads := 4, backend_chunksize := 4294967295 },
       none) ∧
    (set_parallel_chunksize (-1)
        { backend_num_threads := 4, backend_chunksize := 0 }).1 ≠
      { backend_num_threads := 4, backend_chunksize := 0 } := by
  exact ⟨(set_parallel_chunksize_negative_wraps
      { backend_num_threads := 4, backend_chunksize := 0 }).2.2.1,
    (set_parallel_chunksize_negative_wraps
      { backend_num_threads := 4, backend_chunksize := 0 }).2.2.2
      (by norm_num)⟩

/-! ## Range-scheduler lemmas -/

theorem chunkRanges_length (b : Nat) :
    ∀ (k s r : Nat), (chunkRanges s b r k).length = k := by
  intro k
  induction k with
  | zero => intro s r; rfl
  | succ n ih =>
    intro s r
    simp only [chunkRanges, List.length_cons]
    rw [ih]

theorem chunkRanges_flatten (b : Nat) :
    ∀ (k s r : Nat),
      ((chunkRanges s b r k).map
        (fun p => List.range' p.1 (p.2 - p.1))).flatten =
        List.range' s (k * b + min k r) := by
  intro k
  induction k with
  | zero => intro s r; simp [chunkRanges]
  | succ n ih =>
    intro s r
    simp only [chunkRanges, List.map_cons, List.flatten_cons]
    rw [ih (s + (b + (if 0 < r then 1 else 0))) (r - 1)]
    rw [Nat.add_sub_cancel_left]
    rw [List.range'_append_1]
    congr 1
    rcases r with _ | r2 <;> simp [Nat.succ_mul] <;> omega

theorem chunkRanges_sizes (b : Nat) :
    ∀ (k s r : Nat),
      (chunkRanges s b r k).map (fun p => p.2 - p.1) =
        (List.range k).map (fun i => b + (if i < r then 1 else 0)) := by
  intro k
  induction k with
  | zero => intro s r; rfl
  | succ n ih =>
    intro s r
    simp only [chunkRanges, List.map_cons]
    rw [List.range_succ_eq_map]
    simp only [List.map_cons, List.map_map]
    rw [Nat.add_sub_cancel_left, ih (s + (b + if 0 < r then 1 else 0)) (r - 1)]
    congr 1
    apply List.map_congr_left
    intro i hi
    rcases r with _ | r2 <;> simp [Function.comp]

theorem sched_total (total threads : Nat) (h : 1 ≤ threads) :
    (min threads total) * (total / threads) +
      min (min threads total) (total % threads) = total := by
  rcases le_or_lt threads total with hle | hlt
  · rw [min_eq_left hle]
    have hr : total % threads < threads := Nat.mod_lt _ h
    rw [min_eq_right (le_of_lt hr)]
    exact Nat.div_add_mod total threads
  · rw [min_eq_right (le_of_lt hlt)]
    rw [Nat.div_eq_of_lt hlt, Nat.mod_eq_of_lt hlt]
    simp

theorem schedRanges_length (total threads : Nat) :
    (schedRanges total threads).length = min threads total := by
  unfold schedRanges
  exact chunkRanges_length _ _ _ _

theorem schedRanges_size_get? (total threads i : Nat)
    (hi : i < min threads total) :
    ((schedRanges total threads).map (fun p => p.2 - p.1)).get? i =
      some (total / threads + (if i < total % threads then 1 else 0)) := by
  unfold schedRanges
  rw [chunkRanges_sizes]
  rw [List.get?_map, List.get?_range hi]
  rfl

theorem schedRanges_flatten (total threads : Nat) (h : 1 ≤ threads) :
    ((schedRanges total threads).map
      (fun p => List.range' p.1 (p.2 - p.1))).flatten = List.range total := by
  unfold schedRanges
  rw [chunkRanges_flatten]
  rw [sched_total total threads h, List.range_eq_range']

/-- C9: For all `total ≥ 0` and `threads ≥ 1`, the chunk-size-0 partition
covers `[0, total)` exactly once with contiguous, ordered, non-overlapping
ranges (their in-order concatenation is exactly `[0, …, total-1]`), the
range count is `min(threads, total)` (hence at most that, and zero when
`total = 0`), any two range sizes differ by at most 1 with earlier ranges
never shorter than later ones, and `total = 10`, `threads = 4` yields
`[0,3),[3,6),[6,8),[8,10)`. -/
theorem sched_ranges_partition :
    ∀ total threads : Nat, 1 ≤ threads →
      (((schedRanges total threads).map
        (fun p => List.range' p.1 (p.2 - p.1))).flatten =
          List.range total) ∧
      ((schedRanges total threads).length = min threads total) ∧
      (total = 0 → schedRanges total threads = []) ∧
      (∀ i j, i ≤ j → j < (schedRanges total threads).length →
        ∃ si sj,
          ((schedRanges total threads).map (fun p => p.2 - p.1)).get? i =
            some si ∧
          ((schedRanges total threads).map (fun p => p.2 - p.1)).get? j =
            some sj ∧ sj ≤ si ∧ si ≤ sj + 1) ∧
      schedRanges 10 4 = [(0, 3), (3, 6), (6, 8), (8, 10)] := by
  intro total threads h
  refine ⟨schedRanges_flatten total threads h,
    schedRanges_length total threads, ?_, ?_, by decide⟩
  · intro h0
    subst h0
    unfold schedRanges
    rw [Nat.min_zero]
    rfl
  · intro i j hij hj
    rw [schedRanges_length] at hj
    have hi : i < min threads total := lt_of_le_of_lt hij hj
    refine ⟨_, _, schedRanges_size_get? total threads i hi,
      schedRanges_size_get? total threads j hj, ?_, ?_⟩ <;>
      split_ifs <;> omega

/-- Witness for C9 at `total = 10`, `threads = 4`: the spec's end-to-end
scenario. -/
theorem sched_ranges_partition_witness :
    schedRanges 10 4 = [(0, 3), (3, 6), (6, 8), (8, 10)] ∧
    ((schedRanges 10 4).map
      (fun p => List.range' p.1 (p.2 - p.1))).flatten = List.range 10 ∧
    (schedRanges 10 4).length = min 4 10 := by
  have h := sched_ranges_partition 10 4 (by decide)
  exact ⟨h.2.2.2.2, h.1, h.2.1⟩

/-! ## Case-insensitivity of the mode string (C10) -/

theorem skb_config (a b : String) (plat : Platform) (c1 : Bool)
    (v : Int) (c2 c3 c4 c5 : Bool) (bk : String) :
    select_known_backend (Env.mk a plat c1 v c2 c3 c4 c5) bk =
      select_known_backend (Env.mk b plat c1 v c2 c3 c4 c5) bk := rfl

theorem sfb_config (a b : String) (plat : Platform) (c1 : Bool)
    (v : Int) (c2 c3 c4 c5 : Bool) :
    ∀ l, select_from_backends (Env.mk a plat c1 v c2 c3 c4 c5) l =
      select_from_backends (Env.mk b plat c1 v c2 c3 c4 c5) l := by
  intro l
  induction l with
  | nil => rfl
  | cons x rest ih =>
    simp only [select_from_backends]
    rw [skb_config a b plat c1 v c2 c3 c4 c5 x, ih]

theorem select_phase_config (a b : String) (plat : Platform) (c1 : Bool)
    (v : Int) (c2 c3 c4 c5 : Bool) (t : String) :
    select_phase (Env.mk a plat c1 v c2 c3 c4 c5) t =
      select_phase (Env.mk b plat c1 v c2 c3 c4 c5) t := by
  simp only [select_phase, skb_config a b plat c1 v c2 c3 c4 c5,
    sfb_config a b plat c1 v c2 c3 c4 c5]

theorem select_phase_known_no_unknown (env : Env) (t : String)
    (ht : t ∈ knownModes) (x : String) :
    select_phase env t ≠ Except.error (Err.unknownLayer x) := by
  simp only [knownModes, List.mem_cons, List.not_mem_nil, or_false] at ht
  rcases ht with rfl | rfl | rfl | rfl | rfl | rfl | rfl
  · rw [select_phase_named_tbb]; simp
  · rw [select_phase_named_omp]; simp
  · rw [select_phase_named_workqueue]; split_ifs <;> simp
  · rw [select_phase_threadsafe]; simp
  · cases hl : env.platform.isLinux
    · rw [select_phase_forksafe_nonlinux env hl]; split_ifs <;> simp
    · rw [select_phase_forksafe_linux env hl]; split_ifs <;> simp
  · rw [select_phase_safe]; simp
  · rw [select_phase_default]; split_ifs <;> simp

theorem select_phase_unknown_payload (env : Env) (t x : String) :
    select_phase env t = Except.error (Err.unknownLayer x) → x = t := by
  by_cases ht : t ∈ knownModes
  · intro hc
    exact absurd hc (select_phase_known_no_unknown env t ht x)
  · rw [select_phase_unknown env t ht]
    intro hc
    simp at hc
    exact hc.symm

theorem launch_threads_err_unknown (env : Env) (s : State) (x : String)
    (h0 : s.is_initialized = false) :
    (launch_threads env s).2 = some (Err.unknownLayer x) ↔
      select_phase env (lowerStr env.threadingLayerConfig) =
        Except.error (Err.unknownLayer x) := by
  unfold launch_threads
  rw [if_neg (by simp [h0])]
  generalize select_phase env (lowerStr env.threadingLayerConfig) = r
  cases r with
  | error e => simp
  | ok p =>
    rcases p with ⟨lib, nm, reqs⟩
    cases lib with
    | none => simp
    | some l => split_ifs <;> simp

/-- C10: The threading-layer mode string is matched case-insensitively:
`_launch_threads` behaves on any configured string exactly as on its
lowercase form (so e.g. `TBB` and `Default` act like `tbb` and `default`),
and the unknown-threading-layer `ValueError` — which names the lowercased
value — is raised exactly for strings whose lowercase form is none of
`tbb`, `omp`, `workqueue`, `threadsafe`, `forksafe`, `safe`, `default`. -/
theorem threading_layer_case_insensitive :
    (∀ env t2 s, lowerStr t2 = lowerStr env.threadingLayerConfig →
      launch_threads { env with threadingLayerConfig := t2 } s =
        launch_threads env s) ∧
    (∀ env s, s.is_initialized = false →
      ((launch_threads env s).2 =
          some (Err.unknownLayer (lowerStr env.threadingLayerConfig)) ↔
        lowerStr env.threadingLayerConfig ∉ knownModes)) ∧
    (∀ env s x, (launch_threads env s).2 = some (Err.unknownLayer x) →
      x = lowerStr env.threadingLayerConfig) := by
  refine ⟨fun env t2 s h => ?_, fun env s h0 => ?_, fun env s x he => ?_⟩
  · obtain ⟨cfg, plat, c1, v, c2, c3, c4, c5⟩ := env
    simp only at h
    unfold launch_threads
    simp only
    rw [h, select_phase_config t2 cfg plat c1 v c2 c3 c4 c5]
  · constructor
    · intro he
      have hsel := (launch_threads_err_unknown env s _ h0).1 he
      intro hmem
      exact select_phase_known_no_unknown env _ hmem _ hsel
    · intro hmem
      exact (launch_threads_err_unknown env s _ h0).2
        (select_phase_unknown env _ hmem)
  · by_cases h0 : s.is_initialized = true
    · rw [launch_threads_noop env s h0] at he
      simp at he
    · have h0f : s.is_initialized = false := by
        revert h0; cases s.is_initialized <;> simp
      have hsel := (launch_threads_err_unknown env s x h0f).1 he
      exact select_phase_unknown_payload env _ x hsel

/-- Witness for C10: `TBB` behaves exactly like `tbb`; `bogus` raises the
unknown-layer error naming `bogus`, while `Default` raises none. -/
theorem threading_layer_case_insensitive_witness :
    launch_threads { envGood with threadingLayerConfig := ("TBB") }
        initState =
      launch_threads { envGood with threadingLayerConfig := ("tbb") }
        initState ∧
    ((launch_threads { envGood with threadingLayerConfig := ("bogus") }
        initState).2 = some (Err.unknownLayer ("bogus"))) ∧
    ((launch_threads { envGood with threadingLayerConfig := ("Default") }
        initState).2 = some (Err.unknownLayer ("default")) ↔ False) := by
  refine ⟨?_, ?_, ?_⟩
  · exact threading_layer_case_insensitive.1
      { envGood with threadingLayerConfig := ("tbb") } ("TBB") initState
      (by decide)
  · have h := (threading_layer_case_insensitive.2.1
      { envGood with threadingLayerConfig := ("bogus") } initState rfl).2
    exact h (by decide)
  · have h := (threading_layer_case_insensitive.2.1
      { envGood with threadingLayerConfig := ("Default") } initState rfl)
    constructor
    · intro hc
      exact absurd (h.1 hc) (by decide)
    · intro hc
      exact hc.elim

end NumbaParallel
